import Mathlib

/-!
Shallow embedding of `pyfair/model/model_input.py` (class `FairDataInput`).

Modelling conventions:
- Real numbers of the Python code are modelled as `ℚ` (all operations used by
  the code — comparisons, `*`, `+`, clipping — are field/order operations, so
  `ℚ` is an executable faithful carrier).
- A Python keyword-argument dict is an association list `Params` in insertion
  order; Python dicts have unique keys and preserve insertion order, and
  assignment of a fresh key appends.
- Stochastic samplers (`scipy.stats.norm/bernoulli` `.rvs`, `FairBetaPert
  .random_variates`) are modelled by an oracle `ω : ℕ → ℚ` supplying the drawn
  values: sample `i` of a call is `ω i`.  This over-approximates the set of
  possible outputs of each sampler (any real sequence), which is sound for the
  universally-quantified properties proved here, none of which depends on the
  distribution of the drawn values.
- Python exceptions are the `Err` type; the `FairException` instances raised by
  the module are the "typed" constructors, while untyped Python-runtime errors
  (TypeError from scipy keyword mismatch, IndexError from `functions[0]`,
  ValueError from 2-tuple destructuring, KeyError from dict subscript) get
  their own constructors with `Err.isTyped = false`.
- The mutable `self._supplied_values` dict is passed as explicit state: the
  stateful methods take a `Store` and return the (possibly updated) `Store`
  next to their `Except` result; an error leaves the incoming store in place,
  exactly as an exception leaves the Python object's dict untouched unless the
  write statement was reached.
-/

namespace FairDataInput

/-- Python dict lookup (`d[key]` / `d.get(key)`) on an association list with
string keys: first binding wins. -/
def alookup {α : Type} : List (String × α) → String → Option α
  | [], _ => none
  | (k, v) :: rest, key => if k = key then some v else alookup rest key

/-- Python `key in d` on an association list. -/
def haskey {α : Type} (l : List (String × α)) (key : String) : Bool :=
  l.any (fun p => p.1 = key)

/-- A keyword-argument set: parameter name ↦ numeric value, in insertion order. -/
abbrev Params := List (String × ℚ)

/-- `self._le_1_targets`: targets whose values must lie in `[0, 1]`. -/
def le_1_targets : List String :=
  ["Action", "Vulnerability", "Control Strength", "Threat Capability"]

/-- `self._bernoulli_targets`: targets always routed to the bernoulli sampler. -/
def bernoulli_targets : List String := ["Vulnerability"]

/-- The four generation functions the parameter map dispatches to
(`_gen_constant`, `_gen_pert`, `_gen_normal`, `_gen_bernoulli`). -/
inductive GenFn
  | constant
  | pert
  | normal
  | bernoulli
deriving DecidableEq, Repr

/-- `self._parameter_map`: keyword ↦ generation function; `none` for an
unrecognized keyword. -/
def parameter_map (key : String) : Option GenFn :=
  if key = "constant" then some .constant
  else if key = "high" then some .pert
  else if key = "mode" then some .pert
  else if key = "low" then some .pert
  else if key = "gamma" then some .pert
  else if key = "mean" then some .normal
  else if key = "stdev" then some .normal
  else if key = "p" then some .bernoulli
  else none

/-- `self._required_keywords`: generation function ↦ required keyword list. -/
def required_keywords : GenFn → List String
  | .constant => ["constant"]
  | .pert => ["low", "mode", "high"]
  | .normal => ["mean", "stdev"]
  | .bernoulli => ["p"]

/-- Errors a request can end in.  The first seven constructors are the typed
`FairException` validation errors of the module's taxonomy; the last four are
untyped Python runtime errors escaping from unguarded code. -/
inductive Err
  | outOfRange (target key : String)
  | negativeValue (key : String)
  | missingKeyword (fn : GenFn) (key : String)
  | unrecognizedKeyword (key : String)
  | mixedKeywords
  | pertOrdering (condition : String)
  | invalidCombination
  | scipyTypeError
  | indexError
  | unpackError
  | keyError
deriving DecidableEq, Repr

/-- Whether an error is one of the typed `FairException` validation errors
(as opposed to an untyped Python runtime error). -/
def Err.isTyped : Err → Bool
  | .outOfRange _ _ => true
  | .negativeValue _ => true
  | .missingKeyword _ _ => true
  | .unrecognizedKeyword _ => true
  | .mixedKeywords => true
  | .pertOrdering _ => true
  | .invalidCombination => true
  | .scipyTypeError => false
  | .indexError => false
  | .unpackError => false
  | .keyError => false

/-- `_check_le_1(target, **kwargs)`: for a bounded target, every supplied
value except `stdev` must lie in `[0, 1]`; raises on the first offender in
iteration order. -/
def check_le_1 (target : String) (kwargs : Params) : Except Err Unit :=
  match kwargs.find? (fun p =>
      decide (target ∈ le_1_targets) && !(p.1 = "stdev")
        && !(decide ((0 : ℚ) ≤ p.2) && decide (p.2 ≤ 1))) with
  | some p => .error (.outOfRange target p.1)
  | none => .ok ()

/-- The keywords subject to the non-negativity rule inside
`_check_parameters`. -/
def relevant_keyword (key : String) : Bool :=
  key = "p" || key = "mean" || key = "constant" || key = "low"
    || key = "mode" || key = "high"

/-- `_check_parameters(target_function, **kwargs)`: first the non-negativity
loop over the supplied items, then the required-keyword loop, each raising on
the first offender. -/
def check_parameters (fn : GenFn) (kwargs : Params) : Except Err Unit :=
  match kwargs.find? (fun p => relevant_keyword p.1 && decide (p.2 < 0)) with
  | some p => .error (.negativeValue p.1)
  | none =>
    match (required_keywords fn).find? (fun k => !(haskey kwargs k)) with
    | some k => .error (.missingKeyword fn k)
    | none => .ok ()

/-- `_determine_func(**kwargs)`: every key must be recognized; the set of
functions the keys map to must be a singleton.  `list(set(...))[0]` on an
empty keyword set is an out-of-bounds index (untyped `IndexError`). -/
def determine_func (kwargs : Params) : Except Err GenFn :=
  match (kwargs.map Prod.fst).find? (fun k => (parameter_map k).isNone) with
  | some k => .error (.unrecognizedKeyword k)
  | none =>
    let functions := ((kwargs.map Prod.fst).filterMap parameter_map).dedup
    if functions.length > 1 then .error .mixedKeywords
    else
      match functions with
      | [] => .error .indexError
      | f :: _ => .ok f

/-- `_check_pert(**kwargs)`: requires `mode ≥ low` and `high ≥ mode`,
checked in that order (a missing key would be a Python `KeyError`, though the
callers only reach this check with all three keys present). -/
def check_pert (kwargs : Params) : Except Err Unit :=
  match alookup kwargs "mode", alookup kwargs "low", alookup kwargs "high" with
  | some mode, some low, some high =>
    if mode ≥ low then
      if high ≥ mode then .ok ()
      else .error (.pertOrdering "high >= mode")
    else .error (.pertOrdering "mode >= low")
  | _, _, _ => .error .keyError

/-- `_gen_constant(count, **kwargs)`: `np.full(count, kwargs['constant'])`. -/
def gen_constant (count : ℕ) (kwargs : Params) : Except Err (List ℚ) :=
  match alookup kwargs "constant" with
  | some c => .ok (List.replicate count c)
  | none => .error .keyError

/-- `_gen_normal(count, **kwargs)`: `scipy.stats.norm(loc=mean, scale=stdev)
.rvs(count)`.  The drawn values are the oracle's values (normal variates are
unbounded reals, so the oracle loses nothing). -/
def gen_normal (ω : ℕ → ℚ) (count : ℕ) (kwargs : Params) : Except Err (List ℚ) :=
  match alookup kwargs "mean", alookup kwargs "stdev" with
  | some _, some _ => .ok ((List.range count).map ω)
  | _, _ => .error .keyError

/-- `_gen_bernoulli(count, **kwargs)`: `scipy.stats.bernoulli(**kwargs)
.rvs(count)`.  The scipy constructor accepts only the keywords `p` and `loc`
and needs `p`; any other keyword set raises an untyped `TypeError`.  The drawn
values are modelled by the oracle (an over-approximation of the `{0, 1}`-valued
law; no property proved here depends on the values drawn). -/
def gen_bernoulli (ω : ℕ → ℚ) (count : ℕ) (kwargs : Params) :
    Except Err (List ℚ) :=
  if (kwargs.map Prod.fst).all (fun k => k = "p" || k = "loc")
      && haskey kwargs "p" then
    .ok ((List.range count).map ω)
  else .error .scipyTypeError

/-- `_gen_pert(count, **kwargs)`: runs `_check_pert`, then draws from the
external `FairBetaPert` collaborator.  `FairBetaPert` is outside this module;
per its contract it returns `count` variates, modelled by the oracle. -/
def gen_pert (ω : ℕ → ℚ) (count : ℕ) (kwargs : Params) : Except Err (List ℚ) :=
  match check_pert kwargs with
  | .error e => .error e
  | .ok _ => .ok ((List.range count).map ω)

/-- Dispatch through the value stored in `self._parameter_map`. -/
def run_func (ω : ℕ → ℚ) (fn : GenFn) (count : ℕ) (kwargs : Params) :
    Except Err (List ℚ) :=
  match fn with
  | .constant => gen_constant count kwargs
  | .pert => gen_pert ω count kwargs
  | .normal => gen_normal ω count kwargs
  | .bernoulli => gen_bernoulli ω count kwargs

/-- `np.clip(x, 0.0, 1.0)` on one value. -/
def clip01 (x : ℚ) : ℚ := max 0 (min 1 x)

/-- `_generate_single(target, count, **kwargs)`: the bounded-range pre-check,
the bernoulli-target shunt or the determine/check/dispatch pipeline, and the
bounded-target post-clip. -/
def generate_single (ω : ℕ → ℚ) (target : String) (count : ℕ)
    (kwargs : Params) : Except Err (List ℚ) :=
  match (if target ∈ le_1_targets then check_le_1 target kwargs
         else .ok ()) with
  | .error e => .error e
  | .ok _ =>
    match (if target ∈ bernoulli_targets then gen_bernoulli ω count kwargs
           else
             match determine_func kwargs with
             | .error e => .error e
             | .ok fn =>
               match check_parameters fn kwargs with
               | .error e => .error e
               | .ok _ => run_func ω fn count kwargs) with
    | .error e => .error e
    | .ok results =>
      if target ∈ le_1_targets then .ok (results.map clip01)
      else .ok results

/-- A value recorded in `self._supplied_values`: a keyword set for `generate`,
a nested mapping for `generate_multi`. -/
inductive StoredVal
  | single (ps : Params)
  | multi (nested : List (String × List (String × Params)))
deriving DecidableEq, Repr

/-- The `self._supplied_values` dict: target name ↦ recorded value,
in insertion order. -/
abbrev Store := List (String × StoredVal)

/-- Python dict assignment `d[key] = v`: updates the existing binding in
place, or appends a new one. -/
def Store.insert : Store → String → StoredVal → Store
  | [], key, v => [(key, v)]
  | (k, w) :: rest, key, v =>
    if k = key then (k, v) :: rest else (k, w) :: Store.insert rest key v

/-- `generate(target, count, **kwargs)`: run `_generate_single`, then default
`gamma` to 4 in the stored copy when `low` is present and `gamma` absent
(a fresh dict key appends), record under `target`, return the samples.  An
error from `_generate_single` leaves the store untouched. -/
def generate (ω : ℕ → ℚ) (st : Store) (target : String) (count : ℕ)
    (kwargs : Params) : Except Err (List ℚ) × Store :=
  match generate_single ω target count kwargs with
  | .error e => (.error e, st)
  | .ok result =>
    let stored : Params :=
      if haskey kwargs "low" && !(haskey kwargs "gamma") then
        kwargs ++ [("gamma", 4)]
      else kwargs
    (.ok result, st.insert target (.single stored))

/-- Python `s.lstrip(chars)`: removes the longest leading run of characters
drawn from the character SET `chars` (not the literal string `chars`). -/
def pyLstrip (s chars : String) : String :=
  String.mk (s.toList.dropWhile (fun c => chars.toList.contains c))

/-- A nested `kwargs_dict`: sub-target ↦ (column name ↦ keyword set). -/
abbrev Nested := List (String × List (String × Params))

/-- One sub-target's dataframe: column name ↦ the column's `count` samples. -/
abbrev Frame := List (String × List ℚ)

/-- The inner loop of `generate_multi`: one column per entry of
`column_dict`, each from its own `_generate_single` call; the first error
aborts. -/
def buildColumns (ω : ℕ → ℚ) (target : String) (count : ℕ) :
    List (String × Params) → Except Err Frame
  | [] => .ok []
  | (column, params) :: rest =>
    match generate_single ω target count params with
    | .error e => .error e
    | .ok data =>
      match buildColumns ω target count rest with
      | .error e => .error e
      | .ok tail => .ok ((column, data) :: tail)

/-- The outer loop of `generate_multi`: one dataframe per sub-target of
`kwargs_dict`, in insertion order. -/
def buildTables (ω : ℕ → ℚ) (count : ℕ) : Nested → Except Err (List Frame)
  | [] => .ok []
  | (target, column_dict) :: rest =>
    match buildColumns ω target count column_dict with
    | .error e => .error e
    | .ok df =>
      match buildTables ω count rest with
      | .error e => .error e
      | .ok dfs => .ok (df :: dfs)

/-- `(df1 * df2).sum(axis=1)` in pandas: the product aligns columns by name,
a column missing from either side is all-NaN, and the row sum skips NaN.  So
row `r` of the result sums `df1[c][r] * df2[c][r]` over exactly the column
names `c` present in both frames. -/
def combineSum (count : ℕ) (df1 df2 : Frame) : List ℚ :=
  (List.range count).map (fun r =>
    (df1.filterMap (fun p =>
      match alookup df2 p.1 with
      | some col2 => some (p.2.getD r 0 * col2.getD r 0)
      | none => none)).sum)

/-- `generate_multi(prefixed_target, count, kwargs_dict)`: strip the prefix
characters, generate every column of every sub-target, destructure the two
dataframes (`df1, df2 = df_dict.values()` — any other count is an untyped
unpacking `ValueError`), multiply elementwise, sum per row, record the raw
`kwargs_dict` under `'multi_' + final_target`, return the summed vector. -/
def generate_multi (ω : ℕ → ℚ) (st : Store) (prefixed_target : String)
    (count : ℕ) (kwargs_dict : Nested) : Except Err (List ℚ) × Store :=
  let final_target := pyLstrip prefixed_target "multi_"
  match buildTables ω count kwargs_dict with
  | .error e => (.error e, st)
  | .ok dfs =>
    match dfs with
    | [df1, df2] =>
      let summed := combineSum count df1 df2
      let new_target := "multi_" ++ final_target
      (.ok summed, st.insert new_target (.multi kwargs_dict))
    | _ => (.error .unpackError, st)

/-- Results of the embedded functions are decidably comparable, so each
theorem below can be evaluated on concrete inputs. -/
instance {e a : Type} [DecidableEq e] [DecidableEq a] : DecidableEq (Except e a) :=
  fun x y =>
    match x, y with
    | .error u, .error v =>
      if h : u = v then .isTrue (by rw [h]) else .isFalse (by simp [h])
    | .ok u, .ok v =>
      if h : u = v then .isTrue (by rw [h]) else .isFalse (by simp [h])
    | .error _, .ok _ => .isFalse (by simp)
    | .ok _, .error _ => .isFalse (by simp)

/-- A fixed sampling oracle used to instantiate theorems at concrete inputs. -/
def oracle0 : ℕ → ℚ := fun _ => 0

theorem clip01_nonneg (x : ℚ) : 0 ≤ clip01 x := le_max_left 0 _

theorem clip01_le_one (x : ℚ) : clip01 x ≤ 1 :=
  max_le (by norm_num) (min_le_left 1 x)

theorem generate_single_le1_bounded (ω : ℕ → ℚ) (target : String) (count : ℕ)
    (kwargs : Params) (samples : List ℚ) (ht : target ∈ le_1_targets)
    (h : generate_single ω target count kwargs = .ok samples) :
    ∀ x ∈ samples, 0 ≤ x ∧ x ≤ 1 := by
  unfold generate_single at h
  split at h
  · simp at h
  · split at h
    · simp at h
    · rw [if_pos ht] at h
      cases h
      intro x hx
      rcases List.mem_map.mp hx with ⟨y, _, hy⟩
      exact hy ▸ ⟨clip01_nonneg y, clip01_le_one y⟩

theorem generate_fst_eq (ω : ℕ → ℚ) (st : Store) (target : String)
    (count : ℕ) (kwargs : Params) :
    (generate ω st target count kwargs).1
      = generate_single ω target count kwargs := by
  unfold generate
  split <;> simp_all

/-- Claim C1: for every bounded target and every parameter set that passes
validation (i.e. for which the call returns samples rather than an error),
every sample returned by `generate_single` — the routine backing both
`generate` and each per-column call inside `generate_multi` — and hence by
`generate`, lies in `[0.0, 1.0]` inclusive, regardless of the distribution
family sampled. -/
theorem c1_bounded_samples (ω : ℕ → ℚ) (st : Store) (target : String)
    (count : ℕ) (kwargs : Params) (samples : List ℚ)
    (ht : target ∈ le_1_targets) :
    (generate_single ω target count kwargs = .ok samples →
      ∀ x ∈ samples, 0 ≤ x ∧ x ≤ 1) ∧
    ((generate ω st target count kwargs).1 = .ok samples →
      ∀ x ∈ samples, 0 ≤ x ∧ x ≤ 1) := by
  refine ⟨fun h => generate_single_le1_bounded ω target count kwargs samples ht h,
    fun h => generate_single_le1_bounded ω target count kwargs samples ht ?_⟩
  rw [← generate_fst_eq ω st target count kwargs]
  exact h

theorem c1_bounded_samples_witness : 0 ≤ (1 : ℚ) ∧ (1 : ℚ) ≤ 1 :=
  (c1_bounded_samples oracle0 [] "Action" 1 [("constant", 1)] [1]
    (by decide)).1 (by decide) 1 (by decide)

/-- Claim C2 counterexample: the claim says `{constant: 5, mean: 2}` fails
with the mixed-keyword error for EVERY target, including the bernoulli-only
target `Vulnerability`; but `Vulnerability` is a bounded target and the raw
bounded-range check runs first, so the call fails with the out-of-range
error instead. -/
theorem c2_mixed_counterexample :
    (generate oracle0 [] "Vulnerability" 1 [("constant", 5), ("mean", 2)]).1
      = .error (.outOfRange "Vulnerability" "constant") ∧
    Err.outOfRange "Vulnerability" "constant" ≠ Err.mixedKeywords :=
  ⟨by decide, by decide⟩

/-- Claim C2 as amended: for every target NOT in the bounded (`le_1`) list —
which excludes the bernoulli-only target `Vulnerability` — and every count,
`generate` with `{constant: 5, mean: 2}` fails with the mixed-keyword error.
(For bounded targets the raw-range check rejects `constant = 5` first, and a
bernoulli-only target would bypass family determination entirely.) -/
theorem c2_mixed_amended (ω : ℕ → ℚ) (st : Store) (target : String)
    (count : ℕ) (h : target ∉ le_1_targets) :
    (generate ω st target count [("constant", 5), ("mean", 2)]).1
      = .error .mixedKeywords := by
  have hb : target ∉ bernoulli_targets := by
    intro hmem
    apply h
    have : target = "Vulnerability" := by
      simpa [bernoulli_targets] using hmem
    rw [this]
    decide
  rw [generate_fst_eq]
  unfold generate_single
  rw [if_neg h]
  simp only [if_neg hb]
  rfl

theorem c2_mixed_amended_witness :
    (generate oracle0 [] "Loss Event Frequency" 1
        [("constant", 5), ("mean", 2)]).1 = .error .mixedKeywords :=
  c2_mixed_amended oracle0 [] "Loss Event Frequency" 1 (by decide)

/-- Claim C9: for every target that is not bernoulli-only, `generate` with an
empty parameter set neither returns samples nor raises a typed validation
error: family determination takes the head of an empty candidate list, so the
failure is an untyped out-of-bounds index error. -/
theorem c9_empty_params_index_error (ω : ℕ → ℚ) (st : Store) (target : String)
    (count : ℕ) (h : target ∉ bernoulli_targets) :
    (generate ω st target count []).1 = .error .indexError ∧
    Err.isTyped .indexError = false := by
  refine ⟨?_, by decide⟩
  rw [generate_fst_eq]
  unfold generate_single
  have hpre : (if target ∈ le_1_targets then check_le_1 target []
      else Except.ok ()) = Except.ok () := by
    split <;> simp [check_le_1]
  rw [hpre]
  simp only [if_neg h]
  rfl

theorem c9_empty_params_witness :
    (generate oracle0 [] "Action" 1 []).1 = .error .indexError ∧
    Err.isTyped .indexError = false :=
  c9_empty_params_index_error oracle0 [] "Action" 1 (by decide)

/-- Claim C7 counterexample: the claim quantifies over EVERY target and every
`c ≥ 0`, but for the bounded target `Action` and `c = 2 ≥ 0` (with `n = 1 ≥ 1`)
the call fails the bounded-range check instead of returning `1` copy of `2`. -/
theorem c7_constant_counterexample :
    (0 : ℚ) ≤ 2 ∧ 1 ≤ 1 ∧
    (generate oracle0 [] "Action" 1 [("constant", 2)]).1
      = .error (.outOfRange "Action" "constant") :=
  ⟨by decide, by decide, by decide⟩

/-- Claim C7 as amended: for every target that is not bernoulli-only, every
count `n`, and every `c ≥ 0` that additionally satisfies `c ≤ 1` whenever the
target is bounded, `generate(target, n, {constant: c})` succeeds and returns
exactly `n` copies of `c`.  (A bernoulli-only target would route `constant`
into the scipy bernoulli constructor and fail; a bounded target rejects
`c > 1`.) -/
theorem c7_constant_amended (ω : ℕ → ℚ) (st : Store) (target : String)
    (n : ℕ) (c : ℚ) (hb : target ∉ bernoulli_targets) (hc : 0 ≤ c)
    (hle : target ∈ le_1_targets → c ≤ 1) :
    (generate ω st target n [("constant", c)]).1
      = .ok (List.replicate n c) := by
  rw [generate_fst_eq]
  have hpre : (if target ∈ le_1_targets then check_le_1 target [("constant", c)]
      else Except.ok ()) = Except.ok () := by
    split
    case isTrue ht =>
      unfold check_le_1
      have : ((0 : ℚ) ≤ c ∧ c ≤ 1) := ⟨hc, hle ht⟩
      simp [List.find?, this.1, this.2]
    case isFalse => rfl
  have hcp : check_parameters .constant [("constant", c)] = Except.ok () := by
    unfold check_parameters
    simp [List.find?, relevant_keyword, not_lt.mpr hc, haskey, required_keywords]
  unfold generate_single
  rw [hpre]
  have hdf : determine_func [("constant", c)] = Except.ok .constant := rfl
  have hrun : run_func ω .constant n [("constant", c)]
      = Except.ok (List.replicate n c) := rfl
  simp only [if_neg hb, hdf, hcp, hrun]
  split
  case isTrue ht =>
    have : clip01 c = c := by
      unfold clip01
      rw [min_eq_right (hle ht), max_eq_right hc]
    rw [List.map_replicate, this]
  case isFalse => rfl

theorem c7_constant_witness :
    (generate oracle0 [] "Loss Event Frequency" 3 [("constant", 2)]).1
      = .ok (List.replicate 3 2) :=
  c7_constant_amended oracle0 [] "Loss Event Frequency" 3 2 (by decide)
    (by decide) (fun h => absurd h (by decide))

theorem alookup_append_of_haskey_false {α : Type} (l : List (String × α))
    (key : String) (v : α) (h : haskey l key = false) :
    alookup (l ++ [(key, v)]) key = some v := by
  induction l with
  | nil => simp [alookup]
  | cons p rest ih =>
    simp only [haskey, List.any_cons, Bool.or_eq_false_iff] at h
    simp only [List.cons_append, alookup]
    rw [if_neg (by simpa using h.1)]
    exact ih (by simp [haskey, h.2])

theorem alookup_insert_self (st : Store) (key : String) (v : StoredVal) :
    alookup (Store.insert st key v) key = some v := by
  induction st with
  | nil => simp [Store.insert, alookup]
  | cons p rest ih =>
    by_cases h : p.1 = key
    · simp [Store.insert, alookup, h]
    · simp only [Store.insert]
      rw [if_neg h]
      simp only [alookup]
      rw [if_neg h]
      exact ih

/-- Claim C5: for every successful `generate` call whose parameter set
contains `low` but not `gamma`, the stored entry for the target is the
supplied set with `gamma = 4` appended (so it contains `gamma == 4`), while
the samples returned are exactly those of `_generate_single` on the original,
un-defaulted parameter set. -/
theorem c5_gamma_defaulted_in_store (ω : ℕ → ℚ) (st : Store) (target : String)
    (count : ℕ) (kwargs : Params) (res : List ℚ) (st2 : Store)
    (hlow : haskey kwargs "low" = true)
    (hgamma : haskey kwargs "gamma" = false)
    (hok : generate ω st target count kwargs = (.ok res, st2)) :
    alookup st2 target = some (.single (kwargs ++ [("gamma", 4)])) ∧
    alookup (kwargs ++ [("gamma", 4)]) "gamma" = some 4 ∧
    generate_single ω target count kwargs = .ok res := by
  unfold generate at hok
  split at hok
  · simp at hok
  case h_2 result heq =>
    rw [hlow, hgamma] at hok
    simp only [Bool.not_false, Bool.and_true] at hok
    obtain ⟨h1, h2⟩ := Prod.mk.injEq .. ▸ hok
    refine ⟨?_, alookup_append_of_haskey_false kwargs "gamma" 4 hgamma, ?_⟩
    · rw [← h2]
      exact alookup_insert_self st target _
    · rw [heq, h1]

theorem c5_gamma_defaulted_witness :
    alookup [("X", StoredVal.single ([("low", (1 : ℚ)), ("mode", 2), ("high", 3)]
        ++ [("gamma", 4)]))] "X"
      = some (.single ([("low", (1 : ℚ)), ("mode", 2), ("high", 3)]
        ++ [("gamma", 4)])) ∧
    alookup ([("low", (1 : ℚ)), ("mode", 2), ("high", 3)] ++ [("gamma", 4)])
        "gamma" = some 4 ∧
    generate_single oracle0 "X" 1 [("low", 1), ("mode", 2), ("high", 3)]
      = .ok [0] :=
  c5_gamma_defaulted_in_store oracle0 [] "X" 1
    [("low", 1), ("mode", 2), ("high", 3)] [0] _ (by decide) (by decide)
    (by decide)

/-- Claim C8 counterexample: the claim says the required-keyword check runs
before the non-negativity check, so a single-family parameter set that is both
missing a required key and carries a negative constrained value should fail
with the missing-keyword error; but `_check_parameters` runs its
non-negativity loop first, so `{low: -1, mode: 2}` on a non-bernoulli,
non-bounded target fails with the negative-value error instead. -/
theorem c8_check_order_counterexample :
    (generate oracle0 [] "Loss Event Frequency" 1 [("low", -1), ("mode", 2)]).1
      = .error (.negativeValue "low") ∧
    Err.negativeValue "low" ≠ Err.missingKeyword .pert "high" :=
  ⟨by decide, by decide⟩

/-- Claim C8 as amended: the validation checks of one request run in the
order bounded-range check on raw input, then family determination, then
NON-NEGATIVITY check, then REQUIRED-KEYWORD check, then (for PERT) the
ordering check; consequently, for a non-bernoulli, non-bounded target whose
parameter set resolves to a single family but is both missing a required key
and contains a negative value for a constrained key, the error raised is the
negative-value error, not the missing-keyword error. -/
theorem c8_check_order_amended (ω : ℕ → ℚ) (st : Store) (target : String)
    (count : ℕ) (kwargs : Params) (fn : GenFn) (key : String)
    (h1 : target ∉ le_1_targets) (h2 : target ∉ bernoulli_targets)
    (hfam : determine_func kwargs = .ok fn)
    (hmiss : ∃ k ∈ required_keywords fn, haskey kwargs k = false)
    (hneg : (kwargs.find? (fun p => relevant_keyword p.1 && decide (p.2 < 0))).map
        Prod.fst = some key) :
    (generate ω st target count kwargs).1 = .error (.negativeValue key) := by
  clear hmiss
  rw [generate_fst_eq]
  obtain ⟨p, hp, hpkey⟩ := Option.map_eq_some'.mp hneg
  have hcp : check_parameters fn kwargs = .error (.negativeValue key) := by
    unfold check_parameters
    simp only [hp]
    rw [hpkey]
  unfold generate_single
  simp only [if_neg h1, if_neg h2, hfam, hcp]

theorem c8_check_order_witness :
    (generate oracle0 [] "Loss Event Frequency" 1 [("low", -1), ("mode", 2)]).1
      = .error (.negativeValue "low") :=
  c8_check_order_amended oracle0 [] "Loss Event Frequency" 1
    [("low", -1), ("mode", 2)] .pert "low" (by decide) (by decide) (by decide)
    ⟨"high", by decide, by decide⟩ (by decide)

/-- Claim C6: the store is mutated only after a generation fully succeeds.
Part one: a failing `generate` returns the store exactly as it was.  Part two:
a failing `generate_multi` returns the store exactly as it was.  Part three: a
successful `generate` writes through `Store.insert` (a single per-key write).
Part four: `Store.insert` on a key already present overwrites in place — the
key list is unchanged (nothing is appended) and the key maps to the new
value. -/
theorem c6_store_write_discipline :
    (∀ (ω : ℕ → ℚ) (st : Store) (target : String) (count : ℕ)
        (kwargs : Params) (e : Err),
        (generate ω st target count kwargs).1 = .error e →
        (generate ω st target count kwargs).2 = st) ∧
    (∀ (ω : ℕ → ℚ) (st : Store) (pt : String) (count : ℕ) (nested : Nested)
        (e : Err),
        (generate_multi ω st pt count nested).1 = .error e →
        (generate_multi ω st pt count nested).2 = st) ∧
    (∀ (ω : ℕ → ℚ) (st : Store) (target : String) (count : ℕ)
        (kwargs : Params) (res : List ℚ),
        (generate ω st target count kwargs).1 = .ok res →
        ∃ v, (generate ω st target count kwargs).2 = Store.insert st target v) ∧
    (∀ (st : Store) (k : String) (v : StoredVal), haskey st k = true →
        (Store.insert st k v).map Prod.fst = st.map Prod.fst) ∧
    (∀ (st : Store) (k : String) (v : StoredVal),
        alookup (Store.insert st k v) k = some v) := by
  refine ⟨?_, ?_, ?_, ?_, fun st k v => alookup_insert_self st k v⟩
  · intro ω st target count kwargs e h
    unfold generate at h ⊢
    cases hg : generate_single ω target count kwargs with
    | error e2 => rfl
    | ok result => rw [hg] at h; simp at h
  · intro ω st pt count nested e h
    unfold generate_multi at h ⊢
    cases hb : buildTables ω count nested with
    | error e2 => rfl
    | ok dfs =>
      rcases dfs with _ | ⟨a, _ | ⟨b, _ | ⟨c, rest⟩⟩⟩
      · rfl
      · rfl
      · rw [hb] at h; simp at h
      · rfl
  · intro ω st target count kwargs res h
    unfold generate at h ⊢
    cases hg : generate_single ω target count kwargs with
    | error e2 => rw [hg] at h; simp at h
    | ok result => exact ⟨_, rfl⟩
  · intro st k v h
    induction st with
    | nil => simp [haskey] at h
    | cons p rest ih =>
      rcases p with ⟨pk, pv⟩
      simp only [haskey, List.any_cons, Bool.or_eq_true] at h
      by_cases hk : pk = k
      · simp [Store.insert, hk]
      · simp only [Store.insert]
        rw [if_neg hk]
        simp only [List.map_cons, List.cons.injEq, true_and]
        refine ih ?_
        rcases h with h | h
        · exact absurd (by simpa using h) hk
        · simpa [haskey] using h

theorem c6_store_write_witness :
    (generate oracle0 [("Action", StoredVal.single [("p", 1)])] "Action" 1
        [("constant", 5)]).2
      = [("Action", StoredVal.single [("p", 1)])] :=
  c6_store_write_discipline.1 oracle0 [("Action", StoredVal.single [("p", 1)])]
    "Action" 1 [("constant", 5)] (.outOfRange "Action" "constant") (by decide)

theorem buildTables_length (ω : ℕ → ℚ) (count : ℕ) (nested : Nested)
    (dfs : List Frame) (h : buildTables ω count nested = .ok dfs) :
    dfs.length = nested.length := by
  induction nested generalizing dfs with
  | nil =>
    simp only [buildTables] at h
    cases h
    rfl
  | cons entry rest ih =>
    rcases entry with ⟨t, cols⟩
    unfold buildTables at h
    split at h
    · simp at h
    · split at h
      · simp at h
      · cases h
        simpa using ih _ (by assumption)

/-- Claim C3 counterexample: the claim says a nested mapping with one
sub-target fails with the typed invalid-combination error; in fact the
2-tuple destructuring of the dataframe dict fails with an untyped unpacking
error. -/
theorem c3_arity_counterexample :
    (generate_multi oracle0 [] "multi_X" 1
        [("t", [("A", [("constant", 2)])])]).1 = .error .unpackError ∧
    Err.unpackError ≠ Err.invalidCombination ∧
    Err.isTyped .unpackError = false :=
  ⟨by decide, by decide, by decide⟩

/-- Claim C3 as amended: for every nested mapping whose number of sub-target
entries is not exactly 2 and whose per-column generations all succeed,
`generate_multi` fails — but with the untyped unpacking error of the implicit
2-tuple destructuring, not with the typed invalid-combination error (no code
path produces `Err.invalidCombination`). -/
theorem c3_arity_amended (ω : ℕ → ℚ) (st : Store) (pt : String) (count : ℕ)
    (nested : Nested) (dfs : List Frame) (hlen : nested.length ≠ 2)
    (hbuild : buildTables ω count nested = .ok dfs) :
    (generate_multi ω st pt count nested).1 = .error .unpackError := by
  have hd : dfs.length ≠ 2 := by
    rw [buildTables_length ω count nested dfs hbuild]
    exact hlen
  unfold generate_multi
  simp only [hbuild]
  rcases dfs with _ | ⟨a, _ | ⟨b, _ | ⟨c, rest⟩⟩⟩
  · rfl
  · rfl
  · simp at hd
  · rfl

theorem c3_arity_witness :
    (generate_multi oracle0 [] "multi_X" 1
        [("t", [("A", [("constant", 2)])])]).1 = .error .unpackError :=
  c3_arity_amended oracle0 [] "multi_X" 1 [("t", [("A", [("constant", 2)])])]
    [[("A", [2])]] (by decide) (by decide)

/-- Claim C4, recorded as a defect of the code: the claim (and the module's
own comment, "Remove prefix from target") call for removing the literal
leading `"multi_"` from the supplied name, but `str.lstrip('multi_')` strips
the longest leading run of characters from the SET `{m, u, l, t, i, _}`.  On
the input name `"multi_im"` the whole remainder `"im"` is consumed, so a
successful `generate_multi` stores the (verbatim, un-normalized) nested
mapping under the key `"multi_"` instead of `"multi_im"`. -/
theorem c4_lstrip_strips_charset :
    (generate_multi oracle0 [] "multi_im" 1
        [("t1", [("A", [("constant", 1)])]),
         ("t2", [("A", [("constant", 1)])])]).2
      = [("multi_", StoredVal.multi
          [("t1", [("A", [("constant", 1)])]),
           ("t2", [("A", [("constant", 1)])])])] ∧
    pyLstrip "multi_im" "multi_" = "" ∧
    ("multi_" ++ pyLstrip "multi_im" "multi_" : String) ≠ "multi_" ++ "im" :=
  ⟨by decide, by decide, by decide⟩

theorem buildColumns_names (ω : ℕ → ℚ) (target : String) (count : ℕ)
    (cols : List (String × Params)) (df : Frame)
    (h : buildColumns ω target count cols = .ok df) :
    df.map Prod.fst = cols.map Prod.fst := by
  induction cols generalizing df with
  | nil =>
    simp only [buildColumns] at h
    cases h
    rfl
  | cons p rest ih =>
    rcases p with ⟨c, ps⟩
    unfold buildColumns at h
    split at h
    · simp at h
    · split at h
      · simp at h
      · cases h
        simpa using ih _ (by assumption)

theorem alookup_eq_none_of_not_mem {α : Type} (l : List (String × α))
    (key : String) (h : key ∉ l.map Prod.fst) : alookup l key = none := by
  induction l with
  | nil => rfl
  | cons p rest ih =>
    simp only [List.map_cons, List.mem_cons] at h
    push_neg at h
    simp only [alookup]
    rw [if_neg (fun hh => h.1 hh.symm)]
    exact ih h.2

theorem buildTables_pair (ω : ℕ → ℚ) (count : ℕ) (t1 t2 : String)
    (cols1 cols2 : List (String × Params)) (dfs : List Frame)
    (h : buildTables ω count [(t1, cols1), (t2, cols2)] = .ok dfs) :
    ∃ df1 df2, buildColumns ω t1 count cols1 = .ok df1 ∧
      buildColumns ω t2 count cols2 = .ok df2 ∧ dfs = [df1, df2] := by
  cases h1 : buildColumns ω t1 count cols1 with
  | error e => simp [buildTables, h1] at h
  | ok dfa =>
    cases h2 : buildColumns ω t2 count cols2 with
    | error e => simp [buildTables, h1, h2] at h
    | ok dfb =>
      have hval : buildTables ω count [(t1, cols1), (t2, cols2)]
          = .ok [dfa, dfb] := by
        simp [buildTables, h1, h2]
      rw [hval] at h
      refine ⟨dfa, dfb, rfl, rfl, ?_⟩
      simpa using h.symm

theorem combineSum_disjoint (count : ℕ) (df1 df2 : Frame)
    (h : ∀ c ∈ df1.map Prod.fst, c ∉ df2.map Prod.fst) :
    combineSum count df1 df2 = List.replicate count 0 := by
  unfold combineSum
  have hfm : ∀ r : ℕ, (df1.filterMap (fun p =>
      match alookup df2 p.1 with
      | some col2 => some (p.2.getD r 0 * col2.getD r 0)
      | none => none)) = ([] : List ℚ) := by
    intro r
    rw [List.filterMap_eq_nil_iff]
    intro p hp
    rw [alookup_eq_none_of_not_mem df2 p.1 (h p.1 (List.mem_map_of_mem Prod.fst hp))]
  simp only [hfm, List.sum_nil]
  refine List.eq_replicate_iff.mpr ⟨by simp, by simp⟩

/-- Claim C10: when `generate_multi` is given exactly two sub-targets whose
column name sets are disjoint and every per-column generation succeeds, the
call does not fail: the elementwise product aligns columns by name, every
entry of an unmatched column is missing, and the per-row sum skips missing
entries — so the returned vector is `count` copies of `0.0`, and the raw
nested mapping is still stored under the stripped-and-re-prefixed key. -/
theorem c10_disjoint_columns (ω : ℕ → ℚ) (st : Store) (pt : String)
    (count : ℕ) (t1 t2 : String) (cols1 cols2 : List (String × Params))
    (hbuild : ∃ dfs, buildTables ω count [(t1, cols1), (t2, cols2)] = .ok dfs)
    (hdisj : ∀ c ∈ cols1.map Prod.fst, c ∉ cols2.map Prod.fst) :
    (generate_multi ω st pt count [(t1, cols1), (t2, cols2)]).1
      = .ok (List.replicate count 0) ∧
    (generate_multi ω st pt count [(t1, cols1), (t2, cols2)]).2
      = Store.insert st ("multi_" ++ pyLstrip pt "multi_")
          (.multi [(t1, cols1), (t2, cols2)]) := by
  obtain ⟨dfs, hb⟩ := hbuild
  obtain ⟨df1, df2, h1, h2, rfl⟩ := buildTables_pair ω count t1 t2 cols1 cols2 dfs hb
  have hdisj' : ∀ c ∈ df1.map Prod.fst, c ∉ df2.map Prod.fst := by
    rw [buildColumns_names ω t1 count cols1 df1 h1,
        buildColumns_names ω t2 count cols2 df2 h2]
    exact hdisj
  refine ⟨?_, ?_⟩
  · unfold generate_multi
    simp only [hb]
    rw [combineSum_disjoint count df1 df2 hdisj']
  · unfold generate_multi
    simp only [hb]

theorem c10_disjoint_columns_witness :
    (generate_multi oracle0 [] "multi_X" 1
        [("a", [("A", [("constant", 1)])]),
         ("b", [("B", [("constant", 1)])])]).1 = .ok (List.replicate 1 0) ∧
    (generate_multi oracle0 [] "multi_X" 1
        [("a", [("A", [("constant", 1)])]),
         ("b", [("B", [("constant", 1)])])]).2
      = Store.insert [] ("multi_" ++ pyLstrip "multi_X" "multi_")
          (.multi [("a", [("A", [("constant", 1)])]),
                   ("b", [("B", [("constant", 1)])])]) :=
  c10_disjoint_columns oracle0 [] "multi_X" 1 "a" "b"
    [("A", [("constant", 1)])] [("B", [("constant", 1)])]
    ⟨[[("A", [1])], [("B", [1])]], by decide⟩ (by decide)

end FairDataInput
